import Mathlib

/-!
Verification of the heuristic spreadsheet-ingestion pipeline of
`Sales_Dashboard_gemini/app.py` against its specification.

The embedding models spreadsheet cells as an inductive `Cell` type: strings,
integer-valued numerics (`num`), float-typed numerics carrying the `.0`
string artifact (`fnum`), and the missing value `na` (pandas `NaN`).
`pyStr` is Python's `str()` on these values, `strLower`/`strContains`
mirror `str.lower()` and the `in` substring test.  Quantities are modelled
as integers.
-/

/-- A spreadsheet cell value: a string, an integer-typed number, a
float-typed number whose `str()` form carries a trailing `.0`, or the
missing value (pandas `NaN`). -/
inductive Cell where
  | str (s : String)
  | num (n : Int)
  | fnum (n : Int)
  | na
deriving DecidableEq, Repr

/-- Python `str()` on a cell value: strings unchanged, ints as digits,
floats with the `.0` artifact, `NaN` printed `nan` (as pandas
`astype(str)` does). -/
def pyStr : Cell → String
  | .str s => s
  | .num n => toString n
  | .fnum n => toString n ++ ".0"
  | .na => "nan"

/-- Whether a cell is the missing value (`pd.isna`). -/
def Cell.isNa : Cell → Bool
  | .na => true
  | _ => false

/-- Python `str.lower()` (ASCII case folding suffices for the keywords the
pipeline uses). -/
def strLower (s : String) : String := ⟨s.data.map Char.toLower⟩

/-- Whitespace characters for Python `str.strip()`. -/
def pySpace (c : Char) : Bool :=
  c = ' ' || c = '\t' || c = '\n' || c = '\x0d' || c = '\x0b' || c = '\x0c'

/-- Drop leading whitespace from a character list. -/
def charsTrimLeft : List Char → List Char
  | [] => []
  | c :: cs => if pySpace c then charsTrimLeft cs else c :: cs

/-- Python `str.strip()`: drop leading and trailing whitespace. -/
def strTrim (s : String) : String :=
  ⟨(charsTrimLeft (charsTrimLeft s.data.reverse).reverse)⟩

/-- `needle` is a prefix of `hay` (on character lists). -/
def charsPrefix : List Char → List Char → Bool
  | [], _ => true
  | _ :: _, [] => false
  | a :: as, b :: bs => a = b && charsPrefix as bs

/-- `needle` occurs contiguously inside `hay` (on character lists). -/
def charsInfix (needle : List Char) : List Char → Bool
  | [] => charsPrefix needle []
  | b :: bs => charsPrefix needle (b :: bs) || charsInfix needle bs

/-- Python's substring test `needle in hay`. -/
def strContains (hay needle : String) : Bool :=
  charsInfix needle.toList hay.toList

/-- `needle` is a suffix of `hay` (on character lists). -/
def charsSuffix (needle hay : List Char) : Bool :=
  charsPrefix needle.reverse hay.reverse

/-- Whether a string ends in the two characters `.0`. -/
def endsDot0 (s : String) : Bool := charsSuffix ['.', '0'] s.data

/-- Strip one trailing `.0` from a string: the regex replacement
`str.replace(r'\.0$', '', regex=True)` of app.py (anchored, so it can fire
at most once). -/
def stripDot0 (s : String) : String :=
  if endsDot0 s then ⟨s.data.dropLast.dropLast⟩ else s

/-- The value of a non-empty all-digit character list, `none` otherwise. -/
def digitsVal : List Char → Option Nat
  | [] => none
  | ds => go 0 ds
where
  go (acc : Nat) : List Char → Option Nat
    | [] => some acc
    | c :: cs => if c.isDigit then go (10 * acc + (c.toNat - 48)) cs else none

/-- Integer parsing for `pd.to_numeric(errors='coerce')` under the
integer-valued cell model: an optional sign followed by digits; anything
else is unparseable (`NaN`). -/
def parseIntStr (s : String) : Option Int :=
  match s.data with
  | '-' :: ds => (digitsVal ds).map (fun n => -(n : Int))
  | '+' :: ds => (digitsVal ds).map (fun n => (n : Int))
  | ds => (digitsVal ds).map (fun n => (n : Int))

/-- `pd.to_numeric(errors='coerce').fillna(0)` under the integer-valued
cell model: numbers keep their value, parseable numeric strings are read,
everything else (including `NaN`) coerces to 0. -/
def coerceNum : Cell → Int
  | .num n => n
  | .fnum n => n
  | .str s => (parseIntStr s).getD 0
  | .na => 0

/-- app.py line 63: the master-side `Order_ID` canonicalization
`astype(str).str.replace(r'\.0$', '', regex=True)`. -/
def masterOrderKey (c : Cell) : String := stripDot0 (pyStr c)

/-- app.py line 95: the detail-side `Order_ID` canonicalization
`astype(str).str.replace(r'\.0$', '', regex=True)`. -/
def detailOrderKey (c : Cell) : String := stripDot0 (pyStr c)

/-- The identifier canonicalization of spec §4.3 (app.py lines 63/95):
stringify, then strip a trailing `.0`. -/
def canonId (c : Cell) : String := stripDot0 (pyStr c)

/-- app.py line 173: the stock-side `Product_Code` normalization before the
inventory groupby/merge, `astype(str).str.strip()` (stringify and trim
whitespace; no `.0` stripping). -/
def stockProductKey (c : Cell) : Cell := Cell.str (strTrim (pyStr c))

/-- app.py line 335: the demand-side `Product_Code` used as the groupby and
merge key — the raw cell value, with no transformation applied. -/
def demandProductKey (c : Cell) : Cell := c

/-- app.py lines 17-24 (`find_header_idx` body): a preview row matches when
every keyword occurs as a substring of some lower-cased stringified cell of
the row. -/
def rowMatches (keywords : List String) (row : List Cell) : Bool :=
  keywords.all (fun k => row.any (fun c => strContains (strLower (pyStr c)) k))

/-- app.py `find_header_idx`: index of the first preview row containing all
keywords, or `none`. -/
def find_header_idx (preview : List (List Cell)) (keywords : List String) : Option Nat :=
  preview.findIdx? (rowMatches keywords)

/-- app.py lines 48-50: the master-sheet header offset — the located index,
with the source's fallback when the locator finds nothing. -/
def sopHeaderChoice (grid : List (List Cell)) : Nat :=
  (find_header_idx (grid.take 15) ["status", "country"]).getD 1

/-- app.py lines 85-87: the detail-sheet header offset, fallback 20. -/
def ordHeaderChoice (grid : List (List Cell)) : Nat :=
  (find_header_idx (grid.take 30) ["order", "number"]).getD 20

/-- A loaded sheet: column labels and data rows. -/
structure Table where
  cols : List String
  rows : List (List Cell)
deriving DecidableEq, Repr

/-- `pd.read_excel(..., header=h)` followed by
`df.columns.astype(str).str.strip()` (app.py lines 52-53, 89-90, 137-138,
156-157): row `h` of the grid becomes the stripped string column labels,
the rows below it the data. -/
def readSheet (grid : List (List Cell)) (header : Nat) : Table :=
  { cols := (grid.getD header []).map (fun c => strTrim (pyStr c)),
    rows := grid.drop (header + 1) }

/-- Cell of a row at a column index (pandas pads short rows with `NaN`). -/
def cellAt (row : List Cell) (i : Nat) : Cell := row.getD i Cell.na

/-- app.py line 56: index of the master identifier column — first column
whose name contains `Proforma`, else column 0; `none` when the table has no
columns at all (in which case `df_sop.columns[0]` raises). -/
def masterIdIdx (cols : List String) : Option Nat :=
  if cols.isEmpty then none
  else some ((cols.findIdx? (fun c => strContains c "Proforma")).getD 0)

/-- app.py line 93: index of the detail identifier column — first column
whose lower-cased name contains both `order` and `number`, else column 0;
`none` when there are no columns. -/
def detailIdIdx (cols : List String) : Option Nat :=
  if cols.isEmpty then none
  else some ((cols.findIdx?
    (fun c => strContains (strLower c) "order" && strContains (strLower c) "number")).getD 0)

/-- app.py line 99: a column name matching one of the specific product-code
fragments. -/
def prodFragMatch (c : String) : Bool :=
  ["finished product", "article no", "sku"].any (fun x => strContains (strLower c) x)

/-- app.py line 102: the generic fallback product-code match — contains
`product` but not `description`. -/
def prodGenericMatch (c : String) : Bool :=
  strContains (strLower c) "product" && !(strContains (strLower c) "description")

/-- app.py lines 99-102: index of the detail product-code column — first
specific-fragment match, else first generic match, else `none`. -/
def findProdColIdx (cols : List String) : Option Nat :=
  match cols.findIdx? prodFragMatch with
  | some j => some j
  | none => cols.findIdx? prodGenericMatch

/-- app.py line 110: index of the first column whose lower-cased name
contains `quantity`. -/
def findQtyCol (cols : List String) : Option Nat :=
  cols.findIdx? (fun c => strContains (strLower c) "quantity")

/-- app.py lines 104-107: the `Product_Code` column of the detail table —
the matched column's cells, or the constant `"Unknown_Product"` when no
column name matches. -/
def productColumn (cols : List String) (rows : List (List Cell)) : List Cell :=
  match findProdColIdx cols with
  | some j => rows.map (fun r => cellAt r j)
  | none => rows.map (fun _ => Cell.str "Unknown_Product")

/-- The placeholder identifiers of app.py line 61. -/
def placeholderIds : List String := ["input", "formula", "nan", "order number"]

/-- app.py lines 61-62: drop rows whose lower-cased stringified identifier
is a placeholder (`isin` filter), then drop rows with a missing identifier
(`dropna`). -/
def cleanupIds (ids : List Cell) : List Cell :=
  (ids.filter (fun c => !(decide (strLower (pyStr c) ∈ placeholderIds)))).filter
    (fun c => !c.isNa)

/-- `groupby(key)[val].sum()` (app.py lines 117, 175, 335): one row per
distinct key, carrying the sum of the values of all input rows with that
key. -/
def groupSum {α : Type} [DecidableEq α] (rows : List (α × Int)) : List (α × Int) :=
  (rows.map Prod.fst).dedup.map
    (fun k => (k, ((rows.filter (fun r => r.1 = k)).map Prod.snd).sum))

/-- First value stored under a key, or a default: a left merge against a
unique-keyed right table followed by `fillna` (app.py lines 121-122). -/
def lookupD {α : Type} [DecidableEq α] (t : List (α × Int)) (k : α) (d : Int) : Int :=
  match t.find? (fun r => r.1 = k) with
  | some r => r.2
  | none => d

/-- A sheet of the uploaded workbook: its name, its raw cell grid, and
whether reading it raises (modelling an unreadable/malformed sheet, the
exceptions `pd.read_excel` can throw). -/
structure Sheet where
  name : String
  grid : List (List Cell)
  corrupt : Bool
deriving DecidableEq, Repr

/-- The uploaded workbook: `openFails` models `pd.ExcelFile` itself
raising. -/
structure Workbook where
  sheets : List Sheet
  openFails : Bool
deriving DecidableEq, Repr

/-- app.py line 43: the master sheet — first sheet whose name contains
`S&OP` or `Meeting` (case-sensitive, as in the source). -/
def masterSheet (wb : Workbook) : Option Sheet :=
  wb.sheets.find? (fun s => strContains s.name "S&OP" || strContains s.name "Meeting")

/-- app.py line 80: the detail sheet — first sheet whose stripped name is
exactly `Orders`. -/
def ordersSheet (wb : Workbook) : Option Sheet :=
  wb.sheets.find? (fun s => strTrim s.name == "Orders")

/-- app.py line 133: the NL stock sheet — name contains `stocklist` and
`nl` case-insensitively. -/
def nlSheet (wb : Workbook) : Option Sheet :=
  wb.sheets.find?
    (fun s => strContains (strLower s.name) "stocklist" && strContains (strLower s.name) "nl")

/-- app.py line 152: the EE stock sheet. -/
def eeSheet (wb : Workbook) : Option Sheet :=
  wb.sheets.find?
    (fun s => strContains (strLower s.name) "stocklist" && strContains (strLower s.name) "ee")

/-- app.py lines 48-63 (master branch): locate the header, load the sheet,
pick and rename the identifier column, drop placeholder/missing-id rows and
canonicalize the surviving identifiers.  Returns the canonical `Order_ID`
of each surviving row; `none` models the `IndexError` of
`df_sop.columns[0]` on a sheet with no columns. -/
def processMaster (grid : List (List Cell)) : Option (List String) :=
  let t := readSheet grid (sopHeaderChoice grid)
  match masterIdIdx t.cols with
  | none => none
  | some i =>
      let idCells := t.rows.map (fun r => cellAt r i)
      some ((cleanupIds idCells).map masterOrderKey)

/-- The claim-relevant content of the loaded detail table: per-row
canonical order id, `Product_Code` cell, and coerced `Quantity`. -/
structure DetailResult where
  orderIds : List String
  products : List Cell
  qtys : List Int
deriving DecidableEq, Repr

/-- app.py lines 85-114 (detail branch): locate the header, load the
sheet, pick and rename the identifier column (affecting later name-fragment
searches), canonicalize identifiers, resolve the product column (falling
back to the constant `Unknown_Product`), and coerce the quantity column
(constant 0 when no column name contains `quantity`).  `none` models the
`IndexError` of `df_orders_detail.columns[0]` on a sheet with no
columns. -/
def processDetail (grid : List (List Cell)) : Option DetailResult :=
  let t := readSheet grid (ordHeaderChoice grid)
  match detailIdIdx t.cols with
  | none => none
  | some i =>
      let cols := t.cols.set i "Order_ID"
      let orderIds := t.rows.map (fun r => detailOrderKey (cellAt r i))
      let products := productColumn cols t.rows
      let qtys :=
        match findQtyCol cols with
        | some q => t.rows.map (fun r => coerceNum (cellAt r q))
        | none => t.rows.map (fun _ => (0 : Int))
      some ⟨orderIds, products, qtys⟩

/-- app.py lines 137-147: the NL stock extraction — read with fixed header
offset 1, find the product column (`prod` and `code`) and quantity column;
when both exist project to (product, quantity) cell pairs, else contribute
nothing. -/
def processStockNL (grid : List (List Cell)) : List (Cell × Cell) :=
  let t := readSheet grid 1
  match t.cols.findIdx? (fun c => strContains (strLower c) "prod" && strContains (strLower c) "code"),
        t.cols.findIdx? (fun c => strContains (strLower c) "quantity") with
  | some p, some q => t.rows.map (fun r => (cellAt r p, cellAt r q))
  | _, _ => []

/-- app.py lines 156-166: the EE stock extraction — fixed header offset 0,
product column contains `article`. -/
def processStockEE (grid : List (List Cell)) : List (Cell × Cell) :=
  let t := readSheet grid 0
  match t.cols.findIdx? (fun c => strContains (strLower c) "article"),
        t.cols.findIdx? (fun c => strContains (strLower c) "quantity") with
  | some p, some q => t.rows.map (fun r => (cellAt r p, cellAt r q))
  | _, _ => []

/-- app.py lines 171-177: coerce `Stock_Qty` to numeric, stringify and trim
`Product_Code`, then aggregate stock by product (dropping the location
granularity); an empty accumulated table yields the empty inventory. -/
def cleanStock (rows : List (Cell × Cell)) : List (Cell × Int) :=
  if rows.isEmpty then []
  else groupSum (rows.map (fun r => (stockProductKey r.1, coerceNum r.2)))

/-- The non-fatal warning of app.py line 149. -/
def warnNL : String := "Warning: Failed to parse Stocklist NL"

/-- The non-fatal warning of app.py line 168. -/
def warnEE : String := "Warning: Failed to parse Stocklist EE"

/-- The caller-visible outcome of `load_data`: the fatal
`(None, None, None, logs)` tuple, or the three tables plus warnings.  The
master table is carried as its canonical ids and its per-row `Total_Qty`
column. -/
inductive LoadResult where
  | fatal (logs : List String)
  | ok (ids : List String) (totals : List Int) (detail : DetailResult)
      (inventory : List (Cell × Int)) (logs : List String)
deriving DecidableEq, Repr

/-- Whether the result is the fatal tuple. -/
def LoadResult.isFatal : LoadResult → Bool
  | .fatal _ => true
  | .ok _ _ _ _ _ => false

/-- The warnings / error messages of a result. -/
def LoadResult.logsOf : LoadResult → List String
  | .fatal l => l
  | .ok _ _ _ _ l => l

/-- The `Total_Qty` column of the returned master table ([] when fatal). -/
def LoadResult.totalsOf : LoadResult → List Int
  | .fatal _ => []
  | .ok _ t _ _ _ => t

/-- The rows one stock-location `try` block contributes: nothing when the
sheet is absent or raises, its extraction otherwise (app.py lines 134-147,
153-166). -/
def stockRows (osh : Option Sheet) (extract : List (List Cell) → List (Cell × Cell)) :
    List (Cell × Cell) :=
  match osh with
  | some sh => if sh.corrupt then [] else extract sh.grid
  | none => []

/-- The warnings one stock-location `try` block appends: exactly its
message when the sheet is present but raises (app.py lines 148-149,
167-168). -/
def stockWarn (osh : Option Sheet) (w : String) : List String :=
  match osh with
  | some sh => if sh.corrupt then [w] else []
  | none => []

/-- app.py lines 130-177: the stock/inventory phase.  Each stock-location
sheet sits in its own `try`: a corrupt sheet appends its warning and
contributes no rows; the accumulated rows are then cleaned and aggregated.
This phase always returns the `ok` tuple. -/
def stockPhase (wb : Workbook) (ids : List String) (totals : List Int)
    (det : DetailResult) : LoadResult :=
  .ok ids totals det
    (cleanStock (stockRows (nlSheet wb) processStockNL ++ stockRows (eeSheet wb) processStockEE))
    (stockWarn (nlSheet wb) warnNL ++ stockWarn (eeSheet wb) warnEE)

/-- app.py lines 27-182 (`load_data`): the ingestion entry point.  A
failing workbook open, an absent master sheet, a failing master-sheet load,
or a failing detail-sheet load each produce the fatal tuple (the last three
via the outer `except`); an absent detail sheet degrades `Total_Qty` to the
constant 0 column (line 125); a present one is aggregated by order id and
left-merged onto the master with `fillna(0)` (lines 117-122). -/
def load_data (wb : Workbook) : LoadResult :=
  if wb.openFails then .fatal ["Fatal Error"]
  else
    match masterSheet wb with
    | none => .fatal ["Critical: S&OP sheet not found."]
    | some sop =>
        if sop.corrupt then .fatal ["Fatal Error"]
        else
          match processMaster sop.grid with
          | none => .fatal ["Fatal Error"]
          | some ids =>
              match ordersSheet wb with
              | some ord =>
                  if ord.corrupt then .fatal ["Fatal Error"]
                  else
                    match processDetail ord.grid with
                    | none => .fatal ["Fatal Error"]
                    | some det =>
                        let agg := groupSum (det.orderIds.zip det.qtys)
                        stockPhase wb ids (ids.map (fun oid => lookupD agg oid 0)) det
              | none => stockPhase wb ids (ids.map (fun _ => 0)) ⟨[], [], []⟩

/-- Whether the chosen master sheet fails to load (corrupt read or a
column-less table), app.py lines 48-75 under the outer `try`. -/
def masterFails (wb : Workbook) : Bool :=
  match masterSheet wb with
  | none => false
  | some sh => sh.corrupt || (processMaster sh.grid).isNone

/-- Whether the present detail sheet fails to load (corrupt read or a
column-less table), app.py lines 85-114 under the outer `try`. -/
def detailFails (wb : Workbook) : Bool :=
  match ordersSheet wb with
  | none => false
  | some sh => sh.corrupt || (processDetail sh.grid).isNone

/-- app.py lines 120-121 at column level: `df_sop.drop(columns=
['Total_Qty'])` when present, then the left merge with the two-column
aggregate appends `Total_Qty`. -/
def mergeMasterCols (cols : List String) : List String :=
  (if "Total_Qty" ∈ cols then cols.filter (fun c => c ≠ "Total_Qty") else cols)
    ++ ["Total_Qty"]

/-- One row of the demand-vs-supply table `df_risk` (app.py lines
335-343). -/
structure RiskRow where
  product : Cell
  demand_qty : Int
  stock_qty : Int
  balance : Int
  rstatus : String
deriving DecidableEq, Repr

/-- The key order of `pd.merge(..., how='outer')`: left keys first, then
the unmatched right keys. -/
def outerKeys (demand stock : List (Cell × Int)) : List Cell :=
  demand.map Prod.fst
    ++ (stock.map Prod.fst).filter (fun k => !(decide (k ∈ demand.map Prod.fst)))

/-- app.py lines 339-343: outer-join aggregated demand against the
inventory table on `Product_Code`, `fillna(0)` for the missing side, then
`Balance = Stock_Qty - Demand_Qty` and `np.where(Balance >= 0, OK,
Shortage)`.  Both inputs are groupby outputs, so their keys are unique and
the merge pairs each key with its single match. -/
def computeRisk (demand stock : List (Cell × Int)) : List RiskRow :=
  (outerKeys demand stock).map (fun p =>
    let d := lookupD demand p 0
    let s := lookupD stock p 0
    ⟨p, d, s, s - d, if s - d ≥ 0 then "✅ OK" else "❌ Shortage"⟩)

/-! ## Helper lemmas (shared; none is a claim's theorem) -/

/-- The keys of a `groupSum` are the deduplicated input keys. -/
theorem groupSum_keys {α : Type} [DecidableEq α] (rows : List (α × Int)) :
    (groupSum rows).map Prod.fst = (rows.map Prod.fst).dedup := by
  simp [groupSum, List.map_map, Function.comp_def]

/-- Every `groupSum` row carries the sum of the matching input values. -/
theorem groupSum_mem_val {α : Type} [DecidableEq α] (rows : List (α × Int)) (k : α) (v : Int)
    (h : (k, v) ∈ groupSum rows) :
    v = ((rows.filter (fun r => r.1 = k)).map Prod.snd).sum := by
  simp only [groupSum, List.mem_map] at h
  obtain ⟨k₂, _, heq⟩ := h
  obtain ⟨h1, h2⟩ := Prod.mk.injEq .. ▸ heq
  subst h1
  exact h2.symm

/-- Membership in the outer-join key column is membership in either side. -/
theorem mem_outerKeys (demand stock : List (Cell × Int)) (p : Cell) :
    p ∈ outerKeys demand stock ↔ p ∈ demand.map Prod.fst ∨ p ∈ stock.map Prod.fst := by
  by_cases h : p ∈ demand.map Prod.fst <;>
    simp [outerKeys, List.mem_filter, h]

/-! ## Claim theorems -/

/-- C3 counterexample: on a master preview with no row containing both
`status` and `country`, the locator does return `none`, but the pipeline
falls back to header offset 1 (app.py line 50), not offset 0 as
claimed. -/
theorem c3_counterexample :
    find_header_idx ([[Cell.str "hello"]].take 15) ["status", "country"] = none ∧
    sopHeaderChoice [[Cell.str "hello"]] = 1 ∧ sopHeaderChoice [[Cell.str "hello"]] ≠ 0 := by
  decide

/-- C3 (amended): when no preview row contains all keywords, the header
locator returns `none`, and the pipeline falls back to header offset 1 for
the master sheet (15-row preview) and offset 20 for the detail sheet
(30-row preview). -/
theorem c3_header_fallback (grid : List (List Cell)) :
    ((∀ row ∈ grid.take 15, rowMatches ["status", "country"] row = false) →
      find_header_idx (grid.take 15) ["status", "country"] = none ∧
        sopHeaderChoice grid = 1) ∧
    ((∀ row ∈ grid.take 30, rowMatches ["order", "number"] row = false) →
      find_header_idx (grid.take 30) ["order", "number"] = none ∧
        ordHeaderChoice grid = 20) := by
  constructor
  · intro h
    have hn : find_header_idx (grid.take 15) ["status", "country"] = none :=
      List.findIdx?_eq_none_iff.mpr h
    exact ⟨hn, by simp [sopHeaderChoice, hn]⟩
  · intro h
    have hn : find_header_idx (grid.take 30) ["order", "number"] = none :=
      List.findIdx?_eq_none_iff.mpr h
    exact ⟨hn, by simp [ordHeaderChoice, hn]⟩

/-- C4 counterexample: a product identifier stored as the float `1002.0`.
The demand side keeps the raw cell, the stock side stringifies and trims
(yielding the string `"1002.0"`), and neither equals the canonical
stringify-and-strip-`.0` form `"1002"`; the same identifier on the two
sides of the product join compares unequal. -/
theorem c4_counterexample :
    demandProductKey (Cell.fnum 1002) ≠ stockProductKey (Cell.fnum 1002) ∧
    stockProductKey (Cell.fnum 1002) ≠ Cell.str (canonId (Cell.fnum 1002)) ∧
    demandProductKey (Cell.fnum 1002) ≠ Cell.str (canonId (Cell.fnum 1002)) := by
  decide

/-- C4 (amended): the `Order_ID` join applies the canonicalization
(stringify, strip trailing `.0`) identically on the master and detail
sides, so a float-typed and a text-typed form of the same order id compare
equal; the `Product_Code` join does not — the stock side is stringified
and whitespace-trimmed while the demand side is left raw, so the same
product identifier can compare unequal across that join. -/
theorem c4_join_canonicalization :
    (∀ c : Cell, masterOrderKey c = detailOrderKey c) ∧
    masterOrderKey (Cell.fnum 1002) = detailOrderKey (Cell.str "1002") ∧
    demandProductKey (Cell.fnum 1002) ≠ stockProductKey (Cell.fnum 1002) := by
  refine ⟨fun c => rfl, by decide, by decide⟩

/-- C5 counterexample: the identifier `"1.0.0"`.  One canonicalization
strips the trailing `.0` leaving `"1.0"`; applying the function again
strips again, leaving `"1"`, so `canon (canon x) ≠ canon x`. -/
theorem c5_counterexample :
    canonId (Cell.str (canonId (Cell.str "1.0.0"))) ≠ canonId (Cell.str "1.0.0") := by
  decide

/-- C5 (amended): canonicalization is idempotent for every identifier
whose canonical form does not itself still end in `.0` (in particular for
every float artifact `n.0`); an identifier ending in `.0.0` is stripped a
second time. -/
theorem c5_canon_idempotent (c : Cell) (h : endsDot0 (canonId c) = false) :
    canonId (Cell.str (canonId c)) = canonId c := by
  show stripDot0 (canonId c) = canonId c
  unfold stripDot0
  simp [h]

/-- C5 witness: the float-artifact id `1002.0` canonicalizes to `"1002"`,
and canonicalizing again is a no-op. -/
theorem c5_canon_idempotent_witness :
    canonId (Cell.str (canonId (Cell.fnum 1002))) = canonId (Cell.fnum 1002) :=
  c5_canon_idempotent (Cell.fnum 1002) (by decide)

/-- C6 counterexample: among the claimed garbage identifiers `"input"`,
`"Formula"`, `""`, `"ORDER NUMBER"` and the valid `"PF-102"`, the literal
empty string is NOT dropped — it is neither a placeholder nor a missing
value — so two rows survive, not only `"PF-102"`. -/
theorem c6_counterexample :
    cleanupIds [Cell.str "input", Cell.str "Formula", Cell.str "",
        Cell.str "ORDER NUMBER", Cell.str "PF-102"]
      = [Cell.str "", Cell.str "PF-102"] ∧
    cleanupIds [Cell.str "input", Cell.str "Formula", Cell.str "",
        Cell.str "ORDER NUMBER", Cell.str "PF-102"]
      ≠ [Cell.str "PF-102"] := by
  decide

/-- C6 (amended): a row is dropped exactly when its lower-cased stringified
identifier is one of the placeholders `{input, formula, nan, order number}`
or the identifier is absent (`NaN`); with the empty cell taken as absent
rather than the literal empty string, only `"PF-102"` survives the claimed
instance (a literal empty-string identifier would survive too). -/
theorem c6_garbage_filter :
    (∀ (ids : List Cell) (c : Cell),
        c ∈ cleanupIds ids ↔
          c ∈ ids ∧ ¬(strLower (pyStr c) ∈ placeholderIds ∨ c.isNa = true)) ∧
    cleanupIds [Cell.str "input", Cell.str "Formula", Cell.na,
        Cell.str "ORDER NUMBER", Cell.str "PF-102"]
      = [Cell.str "PF-102"] := by
  constructor
  · intro ids c
    simp [cleanupIds, List.mem_filter, not_or]
    tauto
  · decide

/-- C8: the aggregator produces exactly one row per distinct key (keys are
exactly the distinct input keys and appear without repetition), each row's
value is the sum of the values of the input rows with that key; the
concrete detail example aggregates coerced quantities to
`{O1 : 15, O2 : 3}`, and when no quantity-like column is found every row's
quantity is the constant 0 (app.py line 114), so every key aggregates to
0 rather than the aggregator failing. -/
theorem c8_aggregation :
    (∀ rows : List (String × Int), ((groupSum rows).map Prod.fst).Nodup) ∧
    (∀ (rows : List (String × Int)) (k : String),
        k ∈ (groupSum rows).map Prod.fst ↔ k ∈ rows.map Prod.fst) ∧
    (∀ (rows : List (String × Int)) (k : String) (v : Int),
        (k, v) ∈ groupSum rows →
          v = ((rows.filter (fun r => r.1 = k)).map Prod.snd).sum) ∧
    groupSum [("O1", coerceNum (Cell.num 10)), ("O1", coerceNum (Cell.num 5)),
        ("O2", coerceNum (Cell.num 3))] = [("O1", 15), ("O2", 3)] ∧
    (∀ (ids : List String) (k : String) (v : Int),
        (k, v) ∈ groupSum (ids.map (fun i => (i, (0 : Int)))) → v = 0) := by
  refine ⟨?_, ?_, ?_, by decide, ?_⟩
  · intro rows
    rw [groupSum_keys]
    exact List.nodup_dedup _
  · intro rows k
    rw [groupSum_keys]
    exact List.mem_dedup
  · intro rows k v h
    exact groupSum_mem_val rows k v h
  · intro ids k v h
    rw [groupSum_mem_val _ _ _ h]
    apply List.sum_eq_zero
    intro x hx
    simp only [List.mem_map, List.mem_filter] at hx
    obtain ⟨⟨k₂, v₂⟩, ⟨hmem, _⟩, hsnd⟩ := hx
    obtain ⟨i, _, hpair⟩ := hmem
    cases hpair
    exact hsnd.symm

/-- C9: the master-merge step at column level — dropping an existing
`Total_Qty` column before the left merge appends the fresh one — leaves
exactly one `Total_Qty` column, and performing the merge twice yields the
same column list as performing it once. -/
theorem c9_merge_columns :
    (∀ cols : List String, (mergeMasterCols cols).count "Total_Qty" = 1) ∧
    (∀ cols : List String, mergeMasterCols (mergeMasterCols cols) = mergeMasterCols cols) := by
  have base : ∀ cols : List String,
      "Total_Qty" ∉ (if "Total_Qty" ∈ cols then
        cols.filter (fun c => c ≠ "Total_Qty") else cols) := by
    intro cols
    by_cases h : "Total_Qty" ∈ cols <;> simp [h]
  constructor
  · intro cols
    rw [mergeMasterCols, List.count_append]
    rw [List.count_eq_zero.mpr (base cols)]
    decide
  · have step : ∀ A : List String, "Total_Qty" ∉ A →
        mergeMasterCols (A ++ ["Total_Qty"]) = A ++ ["Total_Qty"] := by
      intro A hA
      simp only [mergeMasterCols]
      rw [if_pos (by simp), List.filter_append]
      have h2 : A.filter (fun c => c ≠ "Total_Qty") = A :=
        List.filter_eq_self.mpr (fun a ha => by
          simp only [ne_eq, decide_not, Bool.not_eq_true', decide_eq_false_iff_not]
          exact fun he => hA (he ▸ ha))
      have h3 : (["Total_Qty"] : List String).filter (fun c => c ≠ "Total_Qty") = [] := by
        decide
      rw [h2, h3, List.append_nil]
    intro cols
    exact step _ (base cols)

/-- C1: for every product code present in the demand table or the
inventory table (both groupby outputs, so unique-keyed; a missing side
contributes 0 after the outer join and `fillna(0)`), the risk table has a
row for that product whose `Balance` is exactly `Stock_Qty − Demand_Qty`
and whose risk status is the shortage marker iff `Balance < 0`. -/
theorem c1_balance_sign (demand stock : List (Cell × Int)) (p : Cell)
    (hd : (demand.map Prod.fst).Nodup) (hs : (stock.map Prod.fst).Nodup)
    (hmem : p ∈ demand.map Prod.fst ∨ p ∈ stock.map Prod.fst) :
    ∃ row ∈ computeRisk demand stock,
      row.product = p ∧
      row.demand_qty = lookupD demand p 0 ∧
      row.stock_qty = lookupD stock p 0 ∧
      row.balance = row.stock_qty - row.demand_qty ∧
      (row.rstatus = "❌ Shortage" ↔ row.balance < 0) := by
  have hk : p ∈ outerKeys demand stock := (mem_outerKeys demand stock p).mpr hmem
  refine ⟨_, List.mem_map_of_mem _ hk, rfl, rfl, rfl, rfl, ?_⟩
  by_cases h : lookupD stock p 0 - lookupD demand p 0 ≥ 0
  · simp only [if_pos h]
    constructor
    · intro he
      exact absurd he (by decide)
    · intro hlt
      omega
  · simp only [if_neg h]
    constructor
    · intro _
      omega
    · intro _
      trivial

/-- C1 witness: a product demanded 5 with no stock is a shortage row with
balance −5; instantiated through `c1_balance_sign`. -/
theorem c1_balance_sign_witness :
    ∃ row ∈ computeRisk [(Cell.str "P1", 5)] [(Cell.str "P2", 7)],
      row.product = Cell.str "P1" ∧
      row.demand_qty = lookupD [(Cell.str "P1", 5)] (Cell.str "P1") 0 ∧
      row.stock_qty = lookupD [(Cell.str "P2", 7)] (Cell.str "P1") 0 ∧
      row.balance = row.stock_qty - row.demand_qty ∧
      (row.rstatus = "❌ Shortage" ↔ row.balance < 0) :=
  c1_balance_sign [(Cell.str "P1", 5)] [(Cell.str "P2", 7)] (Cell.str "P1")
    (by decide) (by decide) (Or.inl (by decide))

/-- The stock phase never produces the fatal tuple. -/
theorem stockPhase_isFatal (wb : Workbook) (ids : List String) (totals : List Int)
    (det : DetailResult) : (stockPhase wb ids totals det).isFatal = false := rfl

/-- The stock phase returns exactly the totals it was given. -/
theorem stockPhase_totalsOf (wb : Workbook) (ids : List String) (totals : List Int)
    (det : DetailResult) : (stockPhase wb ids totals det).totalsOf = totals := rfl

/-- The stock phase's logs are the two stock-location warnings. -/
theorem stockPhase_logsOf (wb : Workbook) (ids : List String) (totals : List Int)
    (det : DetailResult) :
    (stockPhase wb ids totals det).logsOf
      = stockWarn (nlSheet wb) warnNL ++ stockWarn (eeSheet wb) warnEE := rfl

/-- A message in a stock-location warning list is that location's
message. -/
theorem stockWarn_mem (osh : Option Sheet) (w m : String) (h : m ∈ stockWarn osh w) :
    m = w := by
  unfold stockWarn at h
  split at h
  · split at h
    · simpa using h
    · simp at h
  · simp at h

/-- A present-but-corrupt stock sheet yields exactly its warning. -/
theorem stockWarn_corrupt (osh : Option Sheet) (sh : Sheet) (w : String)
    (h : osh = some sh) (hc : sh.corrupt = true) : stockWarn osh w = [w] := by
  subst h
  simp [stockWarn, hc]

/-- Every run of `load_data` is either fatal or ends in the stock phase. -/
theorem load_data_shape (wb : Workbook) :
    (load_data wb).isFatal = true ∨
    ∃ ids totals det, load_data wb = stockPhase wb ids totals det := by
  unfold load_data
  repeat' first
    | exact Or.inl rfl
    | exact Or.inr ⟨_, _, _, rfl⟩
    | split

/-- C2: the ingestion entry point is total on the modelled failure points
and its outcome is exactly characterized — the fatal no-tables result
occurs precisely when opening the workbook fails, the master (S&OP) sheet
is absent (with its dedicated message), or the master- or detail-sheet
load fails at top level; a failure of a single stock-location sheet never
makes the run fatal and instead appends that location's warning string to
the returned logs. -/
theorem c2_error_contract (wb : Workbook) :
    ((load_data wb).isFatal
        = (wb.openFails || (masterSheet wb).isNone || masterFails wb || detailFails wb)) ∧
    (wb.openFails = false → masterSheet wb = none →
        load_data wb = .fatal ["Critical: S&OP sheet not found."]) ∧
    (∀ sh : Sheet, nlSheet wb = some sh → sh.corrupt = true →
        (load_data wb).isFatal = false → warnNL ∈ (load_data wb).logsOf) ∧
    (∀ sh : Sheet, eeSheet wb = some sh → sh.corrupt = true →
        (load_data wb).isFatal = false → warnEE ∈ (load_data wb).logsOf) := by
  refine ⟨?_, ?_, ?_, ?_⟩
  · unfold load_data
    split
    · next h => simp [LoadResult.isFatal, h]
    · next h =>
      have h0 : wb.openFails = false := by simpa using h
      split
      · next hm => simp [LoadResult.isFatal, h0, hm]
      · next sop hm =>
        split
        · next hc => simp [LoadResult.isFatal, h0, hm, masterFails, hc]
        · next hc =>
          have hc0 : sop.corrupt = false := by simpa using hc
          split
          · next hpm => simp [LoadResult.isFatal, h0, hm, masterFails, hc0, hpm]
          · next ids hpm =>
            split
            · next ord ho =>
              split
              · next hoc =>
                simp [LoadResult.isFatal, h0, hm, masterFails, detailFails, hc0, hpm, ho, hoc]
              · next hoc =>
                have hoc0 : ord.corrupt = false := by simpa using hoc
                split
                · next hpd =>
                  simp [LoadResult.isFatal, h0, hm, masterFails, detailFails, hc0, hpm, ho,
                    hoc0, hpd]
                · next det hpd =>
                  simp [stockPhase_isFatal, h0, hm, masterFails, detailFails, hc0, hpm, ho,
                    hoc0, hpd]
            · next ho =>
              simp [stockPhase_isFatal, h0, hm, masterFails, detailFails, hc0, hpm, ho]
  · intro h0 hm
    unfold load_data
    simp [h0, hm]
  · intro sh hnl hc hok
    rcases load_data_shape wb with hf | ⟨ids, totals, det, heq⟩
    · rw [hf] at hok
      exact absurd hok (by simp)
    · rw [heq, stockPhase_logsOf, stockWarn_corrupt (nlSheet wb) sh warnNL hnl hc]
      simp
  · intro sh hee hc hok
    rcases load_data_shape wb with hf | ⟨ids, totals, det, heq⟩
    · rw [hf] at hok
      exact absurd hok (by simp)
    · rw [heq, stockPhase_logsOf, stockWarn_corrupt (eeSheet wb) sh warnEE hee hc]
      simp

/-- C7: when the master sheet loads successfully and the Orders detail
sheet is absent — or loads but is empty, so no detail row matches any
master row — the run is not fatal and the returned master table carries
`Total_Qty = 0` in every one of its rows (one value per master row, never
a missing value). -/
theorem c7_total_qty_zero (wb : Workbook) (sop : Sheet) (ids : List String)
    (hopen : wb.openFails = false)
    (hm : masterSheet wb = some sop)
    (hc : sop.corrupt = false)
    (hp : processMaster sop.grid = some ids)
    (hdet : ordersSheet wb = none ∨
      ∃ osh det, ordersSheet wb = some osh ∧ osh.corrupt = false ∧
        processDetail osh.grid = some det ∧ det.orderIds = []) :
    (load_data wb).isFatal = false ∧
    (load_data wb).totalsOf.length = ids.length ∧
    (∀ t ∈ (load_data wb).totalsOf, t = 0) := by
  have hzip : ∀ qs : List Int, (([] : List String).zip qs) = [] := by
    intro qs
    cases qs <;> rfl
  rcases hdet with ho | ⟨osh, det, ho, hoc, hpd, hids⟩
  · have heq : load_data wb = stockPhase wb ids (ids.map (fun _ => 0)) ⟨[], [], []⟩ := by
      unfold load_data
      simp [hopen, hm, hc, hp, ho]
    rw [heq, stockPhase_isFatal, stockPhase_totalsOf]
    refine ⟨rfl, List.length_map _ _, ?_⟩
    intro t ht
    obtain ⟨_, _, h0⟩ := List.mem_map.mp ht
    exact h0.symm
  · have heq : load_data wb = stockPhase wb ids
        (ids.map (fun oid => lookupD (groupSum (det.orderIds.zip det.qtys)) oid 0)) det := by
      unfold load_data
      simp [hopen, hm, hc, hp, ho, hoc, hpd]
    rw [heq, stockPhase_isFatal, stockPhase_totalsOf]
    refine ⟨rfl, List.length_map _ _, ?_⟩
    intro t ht
    obtain ⟨oid, _, h0⟩ := List.mem_map.mp ht
    rw [hids, hzip] at h0
    exact h0.symm

/-- C7 witness: a workbook with only a valid one-row master sheet loads
without a fatal error and its single `Total_Qty` value is 0. -/
theorem c7_total_qty_zero_witness :
    (load_data ⟨[⟨"S&OP", [[Cell.str "Status", Cell.str "Country"],
        [Cell.str "PF-1", Cell.str "NL"]], false⟩], false⟩).isFatal = false ∧
    (load_data ⟨[⟨"S&OP", [[Cell.str "Status", Cell.str "Country"],
        [Cell.str "PF-1", Cell.str "NL"]], false⟩], false⟩).totalsOf.length
      = ["PF-1"].length ∧
    (∀ t ∈ (load_data ⟨[⟨"S&OP", [[Cell.str "Status", Cell.str "Country"],
        [Cell.str "PF-1", Cell.str "NL"]], false⟩], false⟩).totalsOf, t = 0) :=
  c7_total_qty_zero
    ⟨[⟨"S&OP", [[Cell.str "Status", Cell.str "Country"],
        [Cell.str "PF-1", Cell.str "NL"]], false⟩], false⟩
    ⟨"S&OP", [[Cell.str "Status", Cell.str "Country"],
        [Cell.str "PF-1", Cell.str "NL"]], false⟩
    ["PF-1"] rfl (by decide) rfl (by decide) (Or.inl (by decide))

/-- Zipping a constant column against equally many quantities pairs the
constant with each quantity. -/
theorem zip_const_cell (c : Cell) :
    ∀ (rs : List (List Cell)) (qs : List Int), rs.length = qs.length →
      (rs.map (fun _ => c)).zip qs = qs.map (fun q => (c, q))
  | [], [], _ => rfl
  | [], _ :: _, h => by simp at h
  | _ :: _, [], h => by simp at h
  | _ :: rs, _ :: qs, h => by
    simp only [List.map_cons, List.zip_cons_cons, List.map]
    rw [zip_const_cell c rs qs (by simpa using h)]

/-- Aggregating rows that all carry one key yields that single key with
the total sum. -/
theorem groupSum_const_key (k : Cell) (vs : List Int) (hne : vs ≠ []) :
    groupSum (vs.map (fun v => (k, v))) = [(k, vs.sum)] := by
  unfold groupSum
  have h1 : (vs.map (fun v => (k, v))).map Prod.fst = List.replicate vs.length k := by
    simp [List.map_map, Function.comp_def]
  have h2 : (vs.map (fun v => (k, v))).filter (fun r => r.1 = k) = vs.map (fun v => (k, v)) :=
    List.filter_eq_self.mpr (by
      intro a ha
      simp only [List.mem_map] at ha
      obtain ⟨v, _, rfl⟩ := ha
      simp)
  rw [h1, List.replicate_dedup (by simpa using hne)]
  simp only [List.map_cons, List.map_nil]
  rw [h2]
  simp [List.map_map, Function.comp_def]

/-- C10: when no detail column name matches a product-code fragment
(the specific fragments `finished product`/`article no`/`sku`, or the
generic `product`-without-`description`), every detail row's
`Product_Code` is the synthetic `"Unknown_Product"`, so the whole demand
of a non-empty detail table aggregates under that single key with the
total quantity; and no warning is produced by this degradation — every
warning an `ok` run returns is one of the two stock-location messages. -/
theorem c10_unknown_product :
    (∀ (cols : List String) (rows : List (List Cell)),
        findProdColIdx cols = none →
          productColumn cols rows = rows.map (fun _ => Cell.str "Unknown_Product")) ∧
    (∀ (cols : List String) (rows : List (List Cell)) (qtys : List Int),
        findProdColIdx cols = none → rows.length = qtys.length → rows ≠ [] →
          groupSum ((productColumn cols rows).zip qtys)
            = [(Cell.str "Unknown_Product", qtys.sum)]) ∧
    (∀ wb : Workbook, (load_data wb).isFatal = false →
        ∀ m ∈ (load_data wb).logsOf, m = warnNL ∨ m = warnEE) := by
  have hprod : ∀ (cols : List String) (rows : List (List Cell)),
      findProdColIdx cols = none →
        productColumn cols rows = rows.map (fun _ => Cell.str "Unknown_Product") := by
    intro cols rows h
    unfold productColumn
    rw [h]
  refine ⟨hprod, ?_, ?_⟩
  · intro cols rows qtys h hlen hne
    rw [hprod cols rows h, zip_const_cell _ rows qtys hlen]
    apply groupSum_const_key
    intro hq
    exact hne (by
      have : qtys.length = 0 := by rw [hq]; rfl
      have : rows.length = 0 := by omega
      exact List.length_eq_zero.mp this)
  · intro wb hok m hm
    rcases load_data_shape wb with hf | ⟨ids, totals, det, heq⟩
    · rw [hf] at hok
      exact absurd hok (by simp)
    · rw [heq, stockPhase_logsOf] at hm
      rcases List.mem_append.mp hm with h | h
      · exact Or.inl (stockWarn_mem _ _ _ h)
      · exact Or.inr (stockWarn_mem _ _ _ h)

